import Mathlib

/-!
Shallow embedding of `src/modal-app/app.py` (the "code-executor" Modal app).

The app runs untrusted source code in one of four languages. Pure parts
(`truncate_output`) become Lean functions on `String`. The effectful parts
(temporary files, `resource.setrlimit`, `subprocess.run`, `os.unlink`) are
embedded by explicit state passing over a `World` record that tracks

  * the files on disk (path and content),
  * the service process resource-limit state (`setrlimit` mutates the
    calling process; children inherit the limits current at spawn time),
  * a log of every spawned child process (command, wall-clock timeout,
    the stdin fed to it, and the inherited CPU / address-space limits),
  * how many cleanup (`finally`) blocks have run.

Nondeterminism of the outside world (which temporary name the OS hands out,
how each child process behaves, whether the compiler managed to create the
artifact before finishing) is captured by environment records (`InterpEnv`,
`CompileEnv`) that each run function consumes. A `subprocess.run` call either
completes with captured stdout/stderr and a return code, or its wall-clock
timeout elapses, in which case Python raises `subprocess.TimeoutExpired`;
the embedding returns an `Outcome` that is either a returned dict
(`ExecutionResult`) or a raised exception.
-/

set_option autoImplicit false

namespace CodeExecutor

/-! ## Constants (lines 11-14 of app.py) -/

def MAX_OUTPUT_LENGTH : Nat := 10000

def MAX_CPU_SECONDS : Nat := 2

def MAX_MEMORY_MB : Nat := 256

/-! ## Resource limits (set_resource_limits, lines 16-22) -/

/-- Pair of (soft, hard) values for each rlimit, as passed to
`resource.setrlimit`. -/
structure RLimits where
  cpu : Nat × Nat
  addressSpace : Nat × Nat
deriving DecidableEq, Repr

/-- Function `set_resource_limits` (lines 16-22): calls `resource.setrlimit`
on the calling (service) process, replacing whatever limit state it had.
Line 21 computes `memory_bytes = MAX_MEMORY_MB * 1024 * 1024` inline. -/
def set_resource_limits (_ : RLimits) : RLimits :=
  { cpu := (MAX_CPU_SECONDS, MAX_CPU_SECONDS)
    addressSpace := (MAX_MEMORY_MB * 1024 * 1024, MAX_MEMORY_MB * 1024 * 1024) }

/-! ## Output truncation (truncate_output, lines 24-28) -/

/-- Function `truncate_output(text, max_len=MAX_OUTPUT_LENGTH)` (lines 24-28).
Python slices by characters, so `text[:max_len]` is `String.take`; the
appended f-string is `"\n... (truncated, N more characters)"` with N the
value of `len(text) - max_len`. Every call site in app.py uses the default
`max_len`, which is passed explicitly here. -/
def truncate_output (text : String) (max_len : Nat) : String :=
  if text.length > max_len then
    text.take max_len ++
      ("\n... (truncated, " ++ toString (text.length - max_len) ++ " more characters)")
  else text

/-! ## Results, exceptions, process model -/

/-- Record for the dict each run function returns:
output, error, success. -/
structure ExecutionResult where
  output : String
  error : String
  success : Bool
deriving DecidableEq, Repr

/-- Exceptions a pipeline can raise. The only exception modelled is
`subprocess.TimeoutExpired`, raised by `subprocess.run` when its wall-clock
`timeout` elapses; no run function has an `except` clause. -/
inductive PyExn where
  | timeoutExpired
deriving DecidableEq, Repr

/-- What a call to a run function delivers to its caller: a returned dict,
or an exception propagating out. -/
inductive Outcome where
  | result (r : ExecutionResult)
  | raised (e : PyExn)
deriving DecidableEq, Repr

/-- Test returning `true` iff the outcome is a returned `ExecutionResult`. -/
def Outcome.isResult : Outcome → Bool
  | .result _ => true
  | .raised _ => false

/-- Projection of the `success` field of a returned result, `none` when an
exception propagated instead. -/
def Outcome.successOf : Outcome → Option Bool
  | .result r => some r.success
  | .raised _ => none

/-- Shape of the argv of each `subprocess.run` call in app.py. -/
inductive Cmd where
  | pythonInterp (src : String)
  | nodeInterp (src : String)
  | gccCompile (src exe : String)
  | gppCompile (src exe : String)
  | exeRun (exe : String)
deriving DecidableEq, Repr

/-- Test returning `true` for the run step of a compiled pipeline
(the `subprocess.run([exe], ...)` call). -/
def Cmd.isRun : Cmd → Bool
  | .exeRun _ => true
  | _ => false

/-- Test returning `true` for a compiler invocation (gcc / g++). -/
def Cmd.isCompile : Cmd → Bool
  | .gccCompile _ _ => true
  | .gppCompile _ _ => true
  | _ => false

/-- Record of one spawned child process: its command, the wall-clock timeout
passed to `subprocess.run`, the value of the `input=` argument, and the
rlimits it inherits from the service process at spawn time. -/
structure SpawnRecord where
  cmd : Cmd
  timeout : Nat
  input : Option String
  cpuLimit : Nat × Nat
  asLimit : Nat × Nat
deriving DecidableEq, Repr

/-- Behaviour of one `subprocess.run` call: the child completes (captured
stdout, stderr, return code), or the wall-clock timeout elapses and
`subprocess.TimeoutExpired` is raised. -/
inductive SubprocResult where
  | completed (stdout stderr : String) (returncode : Int)
  | timedOut
deriving DecidableEq, Repr

/-! ## The world state threaded through each pipeline -/

/-- Observable state: files on disk (path, content), the rlimit state of the
service process, the log of spawned children, and how many cleanup blocks
ran. -/
structure World where
  files : List (String × String)
  limits : RLimits
  spawns : List SpawnRecord
  cleanups : Nat
deriving DecidableEq, Repr

/-- World with given files and limit state and an empty history. -/
def World.init (files : List (String × String)) (limits : RLimits) : World :=
  { files := files, limits := limits, spawns := [], cleanups := 0 }

/-- Effect of writing `code` to a fresh file at `path`
(`tempfile.NamedTemporaryFile(...)` followed by `f.write(code)`). -/
def World.createFile (w : World) (path code : String) : World :=
  { w with files := (path, code) :: w.files }

/-- Effect of `os.unlink(path)`: the file at `path` is removed. -/
def World.unlink (w : World) (path : String) : World :=
  { w with files := w.files.filter (fun e => e.1 ≠ path) }

/-- Test for `os.path.exists(path)`. -/
def World.pathExists (w : World) (path : String) : Bool :=
  w.files.any (fun e => e.1 = path)

/-- Effect of `resource.setrlimit`: mutates the limit state of the service
process. -/
def World.setLimits (w : World) (l : RLimits) : World :=
  { w with limits := l }

/-- Effect of `subprocess.run(...)`: a child is spawned; it inherits the
current rlimits of the service process. -/
def World.spawn (w : World) (cmd : Cmd) (timeout : Nat) (input : Option String) : World :=
  { w with spawns := w.spawns ++ [⟨cmd, timeout, input, w.limits.cpu, w.limits.addressSpace⟩] }

/-- Effect of one `finally` cleanup block finishing execution. -/
def World.cleanupDone (w : World) : World :=
  { w with cleanups := w.cleanups + 1 }

/-- Value of the `input=stdin if stdin else None` argument (lines 51, 77,
119, 164): Python truthiness sends both `None` and the empty string to
`None`. -/
def inputArg (stdin : Option String) : Option String :=
  match stdin with
  | none => none
  | some s => if s = "" then none else some s

/-! ## Environments: the behaviour of the outside world for one call -/

/-- Environment of an interpreted pipeline (`run_python`, `run_js`): the
unique temporary path the OS hands out, and how the single child behaves. -/
structure InterpEnv where
  srcPath : String
  runRes : SubprocResult
deriving DecidableEq, Repr

/-- Environment of a compiled pipeline (`run_c`, `run_cpp`): the temporary
source path, how the compiler behaves, whether the artifact file got created
on disk, and how the compiled binary behaves when run. -/
structure CompileEnv where
  srcPath : String
  compileRes : SubprocResult
  exeCreated : Bool
  runRes : SubprocResult
deriving DecidableEq, Repr

/-- Test: the wall-clock timeout of the interpreted pipeline was hit. -/
def InterpEnv.wallTimeout (env : InterpEnv) : Bool :=
  match env.runRes with
  | .timedOut => true
  | .completed _ _ _ => false

/-- Test: the compiled pipeline hit a wall-clock timeout on a step it
actually reached: the compile step, or (only when compilation exited zero)
the run step. -/
def CompileEnv.wallTimeout (env : CompileEnv) : Bool :=
  match env.compileRes with
  | .timedOut => true
  | .completed _ _ rc =>
      if rc ≠ 0 then false
      else
        match env.runRes with
        | .timedOut => true
        | .completed _ _ _ => false

/-! ## run_python (lines 37-60) and run_js (lines 63-86) -/

/-- Function `run_python` (lines 37-60). Steps: `set_resource_limits()`;
write `code` to a fresh `.py` temp file; then
`try: subprocess.run([sys.executable, path], timeout=25,
input=stdin if stdin else None) finally: os.unlink(path)`; return the dict.
There is no `except` clause: when the timeout elapses, `TimeoutExpired`
propagates after the `finally` block runs. -/
def run_python (env : InterpEnv) (code : String) (stdin : Option String)
    (w : World) : Outcome × World :=
  let w := w.setLimits (set_resource_limits w.limits)
  let path := env.srcPath
  let w := w.createFile path code
  let w := w.spawn (.pythonInterp path) 25 (inputArg stdin)
  match env.runRes with
  | .completed out err rc =>
      let w := (w.unlink path).cleanupDone
      (.result ⟨truncate_output out MAX_OUTPUT_LENGTH,
                truncate_output err MAX_OUTPUT_LENGTH, rc == 0⟩, w)
  | .timedOut =>
      let w := (w.unlink path).cleanupDone
      (.raised .timeoutExpired, w)

/-- Function `run_js` (lines 63-86): identical to `run_python` except the
`.js` suffix and the `node` interpreter. -/
def run_js (env : InterpEnv) (code : String) (stdin : Option String)
    (w : World) : Outcome × World :=
  let w := w.setLimits (set_resource_limits w.limits)
  let path := env.srcPath
  let w := w.createFile path code
  let w := w.spawn (.nodeInterp path) 25 (inputArg stdin)
  match env.runRes with
  | .completed out err rc =>
      let w := (w.unlink path).cleanupDone
      (.result ⟨truncate_output out MAX_OUTPUT_LENGTH,
                truncate_output err MAX_OUTPUT_LENGTH, rc == 0⟩, w)
  | .timedOut =>
      let w := (w.unlink path).cleanupDone
      (.raised .timeoutExpired, w)

/-! ## run_c (lines 89-131) and run_cpp (lines 134-176) -/

/-- Body of the `finally` block of `run_c` / `run_cpp` (lines 127-131 and
172-176): `if os.path.exists(src): os.unlink(src)` then
`if os.path.exists(exe): os.unlink(exe)`. -/
def compiledCleanup (src exe : String) (w : World) : World :=
  let w := if w.pathExists src then w.unlink src else w
  let w := if w.pathExists exe then w.unlink exe else w
  w.cleanupDone

/-- Function `run_c` (lines 89-131). Steps: `set_resource_limits()`; write
`code` to a fresh `.c` temp file `src`; `exe = src + ".out"`; inside `try`:
compile with `gcc` (timeout 20, no stdin); on non-zero compiler exit return
the dict with empty output, truncated compiler stderr, success `False`,
without running; otherwise run `[exe]` (timeout 20, stdin as for python) and
return its dict; the `finally` block removes `src` and `exe` when they
exist. A `TimeoutExpired` from either `subprocess.run` propagates after
`finally`. -/
def run_c (env : CompileEnv) (code : String) (stdin : Option String)
    (w : World) : Outcome × World :=
  let w := w.setLimits (set_resource_limits w.limits)
  let src := env.srcPath
  let w := w.createFile src code
  let exe := src ++ ".out"
  let w := w.spawn (.gccCompile src exe) 20 none
  let w := if env.exeCreated then w.createFile exe ("") else w
  match env.compileRes with
  | .timedOut => (.raised .timeoutExpired, compiledCleanup src exe w)
  | .completed _ cerr crc =>
      if crc ≠ 0 then
        (.result ⟨"", truncate_output cerr MAX_OUTPUT_LENGTH, false⟩,
         compiledCleanup src exe w)
      else
        let w := w.spawn (.exeRun exe) 20 (inputArg stdin)
        match env.runRes with
        | .timedOut => (.raised .timeoutExpired, compiledCleanup src exe w)
        | .completed out err rc =>
            (.result ⟨truncate_output out MAX_OUTPUT_LENGTH,
                      truncate_output err MAX_OUTPUT_LENGTH, rc == 0⟩,
             compiledCleanup src exe w)

/-- Function `run_cpp` (lines 134-176): identical to `run_c` except the
`.cpp` suffix and the `g++` compiler. -/
def run_cpp (env : CompileEnv) (code : String) (stdin : Option String)
    (w : World) : Outcome × World :=
  let w := w.setLimits (set_resource_limits w.limits)
  let src := env.srcPath
  let w := w.createFile src code
  let exe := src ++ ".out"
  let w := w.spawn (.gppCompile src exe) 20 none
  let w := if env.exeCreated then w.createFile exe ("") else w
  match env.compileRes with
  | .timedOut => (.raised .timeoutExpired, compiledCleanup src exe w)
  | .completed _ cerr crc =>
      if crc ≠ 0 then
        (.result ⟨"", truncate_output cerr MAX_OUTPUT_LENGTH, false⟩,
         compiledCleanup src exe w)
      else
        let w := w.spawn (.exeRun exe) 20 (inputArg stdin)
        match env.runRes with
        | .timedOut => (.raised .timeoutExpired, compiledCleanup src exe w)
        | .completed out err rc =>
            (.result ⟨truncate_output out MAX_OUTPUT_LENGTH,
                      truncate_output err MAX_OUTPUT_LENGTH, rc == 0⟩,
             compiledCleanup src exe w)

/-! ## execute (lines 179-195) -/

/-- Bundle of the environments of all four pipelines, so `execute` can
dispatch. -/
structure Env where
  py : InterpEnv
  js : InterpEnv
  c : CompileEnv
  cpp : CompileEnv
deriving DecidableEq, Repr

/-- Record for the JSON payload `execute` receives. Calls
`payload.get("code", "")` and `payload.get("language", "")` default missing
keys to the empty string; `payload.get("stdin")` defaults to `None`. -/
structure Payload where
  code : Option String
  language : Option String
  stdin : Option String
deriving DecidableEq, Repr

/-- Function `execute` (lines 179-195): string-keyed dispatch to the four
pipelines; any other language returns the dict with empty output, error
`"Unsupported language: "` followed by the language, success `False`,
without touching the world. An exception raised by a pipeline is not
caught. -/
def execute (env : Env) (payload : Payload) (w : World) : Outcome × World :=
  let code := payload.code.getD ("")
  let language := payload.language.getD ("")
  let stdin := payload.stdin
  if language = "python" then run_python env.py code stdin w
  else if language = "javascript" then run_js env.js code stdin w
  else if language = "c" then run_c env.c code stdin w
  else if language = "cpp" then run_cpp env.cpp code stdin w
  else (.result ⟨"", "Unsupported language: " ++ language, false⟩, w)

/-! ## Auxiliary definitions used only to state and witness theorems -/

/-- Freshness of the temporary paths an environment hands out: none of the
six paths a call could create collides with a file already on disk.
`tempfile.NamedTemporaryFile` guarantees a fresh unique name. -/
def envFresh (env : Env) (files : List (String × String)) : Prop :=
  env.py.srcPath ∉ files.map Prod.fst ∧
  env.js.srcPath ∉ files.map Prod.fst ∧
  env.c.srcPath ∉ files.map Prod.fst ∧
  env.c.srcPath ++ ".out" ∉ files.map Prod.fst ∧
  env.cpp.srcPath ∉ files.map Prod.fst ∧
  env.cpp.srcPath ++ ".out" ∉ files.map Prod.fst

/-- Concrete 10001-character string, used to instantiate the truncation
theorem beyond the threshold. -/
def longText : String := String.mk (List.replicate 10001 (Char.ofNat 97))

/-- Concrete pre-call limit state used by concrete instantiations, chosen
different from the constants the app sets. -/
def demoLimits : RLimits := ⟨(7, 8), (9, 10)⟩

/-- Concrete environment bundle used by concrete instantiations. -/
def demoEnv : Env :=
  { py := ⟨"/tmp/a.py", .completed ("out") ("") 0⟩
    js := ⟨"/tmp/a.js", .completed ("") ("") 0⟩
    c := ⟨"/tmp/a.c", .completed ("") ("") 0, true, .completed ("") ("") 0⟩
    cpp := ⟨"/tmp/a.cpp", .timedOut, false, .timedOut⟩ }

/-- Concrete interpreted environment whose child exits non-zero. -/
def wPy : InterpEnv := ⟨"/tmp/w.py", .completed ("o") ("e") 3⟩

/-- Concrete interpreted environment whose child exits zero. -/
def wJs : InterpEnv := ⟨"/tmp/w.js", .completed ("") ("") 0⟩

/-- Concrete compiled environment whose compiler exits non-zero. -/
def wCFail : CompileEnv := ⟨"/tmp/w.c", .completed ("") ("cdiag") 2, false, .completed ("") ("") 9⟩

/-- Concrete compiled environment whose compile and run both exit zero. -/
def wCOk : CompileEnv := ⟨"/tmp/w.c", .completed ("") ("") 0, true, .completed ("ok") ("") 0⟩

/-- Concrete compiled environment whose compiler exits non-zero while the
artifact got created. -/
def wCppFail : CompileEnv := ⟨"/tmp/w.cpp", .completed ("") ("cppdiag") 5, true, .timedOut⟩

/-- Concrete compiled environment whose compile exits zero and whose run
exits non-zero. -/
def wCppOk : CompileEnv := ⟨"/tmp/w.cpp", .completed ("") ("") 0, true, .completed ("") ("") 7⟩

/-! ## Helper lemmas -/

lemma filter_of_fresh (files : List (String × String)) (p : String)
    (h : p ∉ files.map Prod.fst) :
    files.filter (fun e => e.1 ≠ p) = files := by
  apply List.filter_eq_self.mpr
  intro a ha
  rw [decide_eq_true_eq]
  intro heq
  exact h (List.mem_map.mpr ⟨a, ha, heq⟩)

lemma append_out_ne (s : String) : s ++ ".out" ≠ s := by
  intro h
  have h2 := congrArg String.length h
  have h3 : (".out").length = 4 := rfl
  simp [String.length_append] at h2
  omega

lemma ite_pathExists_unlink (w : World) (p : String) :
    (if w.pathExists p then w.unlink p else w) = w.unlink p := by
  by_cases h : w.pathExists p
  · rw [if_pos h]
  · rw [if_neg h]
    unfold World.unlink
    have hfilter : w.files.filter (fun e => e.1 ≠ p) = w.files := by
      apply List.filter_eq_self.mpr
      intro a ha
      rw [decide_eq_true_eq]
      intro heq
      exact h (List.any_eq_true.mpr ⟨a, ha, decide_eq_true heq⟩)
    rw [hfilter]

lemma compiledCleanup_eq (src exe : String) (w : World) :
    compiledCleanup src exe w = ((w.unlink src).unlink exe).cleanupDone := by
  simp only [compiledCleanup, ite_pathExists_unlink]

lemma cleanup_list_no_exe (src code exe : String) (files : List (String × String))
    (h1 : src ∉ files.map Prod.fst) (h2 : exe ∉ files.map Prod.fst) :
    (((src, code) :: files).filter (fun e => e.1 ≠ src)).filter (fun e => e.1 ≠ exe)
      = files := by
  rw [List.filter_cons_of_neg (by simp), filter_of_fresh files src h1,
    filter_of_fresh files exe h2]

lemma cleanup_list_exe (src code : String) (files : List (String × String))
    (h1 : src ∉ files.map Prod.fst) (h2 : src ++ ".out" ∉ files.map Prod.fst) :
    (((src ++ ".out", "") :: (src, code) :: files).filter (fun e => e.1 ≠ src)).filter
        (fun e => e.1 ≠ src ++ ".out") = files := by
  rw [List.filter_cons_of_pos (by simp [append_out_ne src]),
    List.filter_cons_of_neg (by simp), List.filter_cons_of_neg (by simp),
    filter_of_fresh files src h1, filter_of_fresh files (src ++ ".out") h2]

lemma run_python_files (env : InterpEnv) (code : String) (stdin : Option String)
    (files : List (String × String)) (limits : RLimits)
    (h : env.srcPath ∉ files.map Prod.fst) :
    (run_python env code stdin (World.init files limits)).2.files = files := by
  obtain ⟨src, rr⟩ := env
  cases rr <;>
    simp only [run_python, World.init, World.setLimits, World.createFile, World.spawn,
      World.unlink, World.cleanupDone] <;>
  · rw [List.filter_cons_of_neg (by simp), filter_of_fresh files src h]

lemma run_python_cleanups (env : InterpEnv) (code : String) (stdin : Option String)
    (files : List (String × String)) (limits : RLimits) :
    (run_python env code stdin (World.init files limits)).2.cleanups = 1 := by
  obtain ⟨src, rr⟩ := env
  cases rr <;> rfl

lemma run_js_files (env : InterpEnv) (code : String) (stdin : Option String)
    (files : List (String × String)) (limits : RLimits)
    (h : env.srcPath ∉ files.map Prod.fst) :
    (run_js env code stdin (World.init files limits)).2.files = files := by
  obtain ⟨src, rr⟩ := env
  cases rr <;>
    simp only [run_js, World.init, World.setLimits, World.createFile, World.spawn,
      World.unlink, World.cleanupDone] <;>
  · rw [List.filter_cons_of_neg (by simp), filter_of_fresh files src h]

lemma run_js_cleanups (env : InterpEnv) (code : String) (stdin : Option String)
    (files : List (String × String)) (limits : RLimits) :
    (run_js env code stdin (World.init files limits)).2.cleanups = 1 := by
  obtain ⟨src, rr⟩ := env
  cases rr <;> rfl

lemma run_c_files (env : CompileEnv) (code : String) (stdin : Option String)
    (files : List (String × String)) (limits : RLimits)
    (h1 : env.srcPath ∉ files.map Prod.fst)
    (h2 : env.srcPath ++ ".out" ∉ files.map Prod.fst) :
    (run_c env code stdin (World.init files limits)).2.files = files := by
  obtain ⟨src, cr, ec, rr⟩ := env
  cases cr with
  | timedOut =>
      cases ec <;>
        simp only [run_c, World.init, World.setLimits, World.createFile, World.spawn,
          compiledCleanup_eq, World.unlink, World.cleanupDone]
      · exact cleanup_list_no_exe src code _ files h1 h2
      · exact cleanup_list_exe src code files h1 h2
  | completed cout cerr crc =>
      by_cases hrc : crc ≠ 0
      · cases ec <;>
          simp only [run_c, World.init, World.setLimits, World.createFile, World.spawn,
            compiledCleanup_eq, World.unlink, World.cleanupDone, if_pos hrc]
        · exact cleanup_list_no_exe src code _ files h1 h2
        · exact cleanup_list_exe src code files h1 h2
      · cases rr <;> cases ec <;>
          simp only [run_c, World.init, World.setLimits, World.createFile, World.spawn,
            compiledCleanup_eq, World.unlink, World.cleanupDone, if_neg hrc]
        · exact cleanup_list_no_exe src code _ files h1 h2
        · exact cleanup_list_exe src code files h1 h2
        · exact cleanup_list_no_exe src code _ files h1 h2
        · exact cleanup_list_exe src code files h1 h2

lemma run_c_cleanups (env : CompileEnv) (code : String) (stdin : Option String)
    (files : List (String × String)) (limits : RLimits) :
    (run_c env code stdin (World.init files limits)).2.cleanups = 1 := by
  obtain ⟨src, cr, ec, rr⟩ := env
  cases cr with
  | timedOut =>
      cases ec <;> simp [run_c, compiledCleanup_eq, World.unlink, World.cleanupDone,
        World.init, World.setLimits, World.createFile, World.spawn]
  | completed cout cerr crc =>
      by_cases hrc : crc ≠ 0 <;> cases rr <;> cases ec <;>
        simp [run_c, compiledCleanup_eq, World.unlink, World.cleanupDone,
          World.init, World.setLimits, World.createFile, World.spawn, hrc]

lemma run_cpp_files (env : CompileEnv) (code : String) (stdin : Option String)
    (files : List (String × String)) (limits : RLimits)
    (h1 : env.srcPath ∉ files.map Prod.fst)
    (h2 : env.srcPath ++ ".out" ∉ files.map Prod.fst) :
    (run_cpp env code stdin (World.init files limits)).2.files = files := by
  obtain ⟨src, cr, ec, rr⟩ := env
  cases cr with
  | timedOut =>
      cases ec <;>
        simp only [run_cpp, World.init, World.setLimits, World.createFile, World.spawn,
          compiledCleanup_eq, World.unlink, World.cleanupDone]
      · exact cleanup_list_no_exe src code _ files h1 h2
      · exact cleanup_list_exe src code files h1 h2
  | completed cout cerr crc =>
      by_cases hrc : crc ≠ 0
      · cases ec <;>
          simp only [run_cpp, World.init, World.setLimits, World.createFile, World.spawn,
            compiledCleanup_eq, World.unlink, World.cleanupDone, if_pos hrc]
        · exact cleanup_list_no_exe src code _ files h1 h2
        · exact cleanup_list_exe src code files h1 h2
      · cases rr <;> cases ec <;>
          simp only [run_cpp, World.init, World.setLimits, World.createFile, World.spawn,
            compiledCleanup_eq, World.unlink, World.cleanupDone, if_neg hrc]
        · exact cleanup_list_no_exe src code _ files h1 h2
        · exact cleanup_list_exe src code files h1 h2
        · exact cleanup_list_no_exe src code _ files h1 h2
        · exact cleanup_list_exe src code files h1 h2

lemma run_cpp_cleanups (env : CompileEnv) (code : String) (stdin : Option String)
    (files : List (String × String)) (limits : RLimits) :
    (run_cpp env code stdin (World.init files limits)).2.cleanups = 1 := by
  obtain ⟨src, cr, ec, rr⟩ := env
  cases cr with
  | timedOut =>
      cases ec <;> simp [run_cpp, compiledCleanup_eq, World.unlink, World.cleanupDone,
        World.init, World.setLimits, World.createFile, World.spawn]
  | completed cout cerr crc =>
      by_cases hrc : crc ≠ 0 <;> cases rr <;> cases ec <;>
        simp [run_cpp, compiledCleanup_eq, World.unlink, World.cleanupDone,
          World.init, World.setLimits, World.createFile, World.spawn, hrc]

/-! ## Claim theorems -/

/-- C1: for every call to `execute` with a supported language, every
temporary file created during the call (the source file, and for c/cpp the
compiled artifact when it got created) is removed by the time the call
finishes, on every exit path — success, compile failure, runtime failure, or
timeout — and the workspace receives exactly one cleanup attempt. Stated
over an arbitrary environment (so all exit paths are covered), under the
freshness of the temporary names the OS hands out. -/
theorem execute_cleans_workspace (env : Env) (payload : Payload)
    (files : List (String × String)) (limits : RLimits)
    (hlang : payload.language.getD ("") ∈
      (["python", "javascript", "c", "cpp"] : List String))
    (hfresh : envFresh env files) :
    (execute env payload (World.init files limits)).2.files = files ∧
      (execute env payload (World.init files limits)).2.cleanups = 1 := by
  obtain ⟨hpy, hjs, hc1, hc2, hp1, hp2⟩ := hfresh
  simp only [List.mem_cons, List.not_mem_nil, or_false] at hlang
  rcases hlang with h | h | h | h
  · simp only [execute, h, if_pos rfl]
    exact ⟨run_python_files _ _ _ _ _ hpy, run_python_cleanups _ _ _ _ _⟩
  · rw [execute]
    simp only [h, reduceIte]
    exact ⟨run_js_files _ _ _ _ _ hjs, run_js_cleanups _ _ _ _ _⟩
  · rw [execute]
    simp only [h, reduceIte]
    exact ⟨run_c_files _ _ _ _ _ hc1 hc2, run_c_cleanups _ _ _ _ _⟩
  · rw [execute]
    simp only [h, reduceIte]
    exact ⟨run_cpp_files _ _ _ _ _ hp1 hp2, run_cpp_cleanups _ _ _ _ _⟩

/-- Closed instantiation of `execute_cleans_workspace` at a concrete
payload, environment and world. -/
theorem execute_cleans_workspace_witness :
    ((⟨some ("print"), some ("python"), none⟩ : Payload).language.getD ("") ∈
      (["python", "javascript", "c", "cpp"] : List String)) ∧
    envFresh demoEnv [] ∧
    ((execute demoEnv ⟨some ("print"), some ("python"), none⟩
        (World.init [] demoLimits)).2.files = [] ∧
      (execute demoEnv ⟨some ("print"), some ("python"), none⟩
        (World.init [] demoLimits)).2.cleanups = 1) :=
  ⟨by decide, by unfold envFresh; decide,
    execute_cleans_workspace demoEnv ⟨some ("print"), some ("python"), none⟩ [] demoLimits
      (by decide) (by unfold envFresh; decide)⟩

/-- C3: `truncate_output` returns text of length at most the threshold
unchanged, and otherwise returns the first `MAX_OUTPUT_LENGTH` characters
followed by a suffix stating exactly `text.length - MAX_OUTPUT_LENGTH` as
the count of omitted characters. -/
theorem truncate_output_spec (text : String) :
    (text.length ≤ MAX_OUTPUT_LENGTH →
      truncate_output text MAX_OUTPUT_LENGTH = text) ∧
    (text.length > MAX_OUTPUT_LENGTH →
      truncate_output text MAX_OUTPUT_LENGTH =
        text.take MAX_OUTPUT_LENGTH ++
          ("\n... (truncated, " ++ toString (text.length - MAX_OUTPUT_LENGTH) ++
            " more characters)")) := by
  constructor
  · intro h
    unfold truncate_output
    rw [if_neg (by omega)]
  · intro h
    unfold truncate_output
    rw [if_pos h]

/-- Closed instantiation of `truncate_output_spec`: a short string is
returned unchanged, and a concrete 10001-character string is truncated with
the exact omitted-character count. -/
theorem truncate_output_spec_witness :
    (("hi" : String).length ≤ MAX_OUTPUT_LENGTH ∧
      truncate_output ("hi") MAX_OUTPUT_LENGTH = "hi") ∧
    (longText.length > MAX_OUTPUT_LENGTH ∧
      truncate_output longText MAX_OUTPUT_LENGTH =
        longText.take MAX_OUTPUT_LENGTH ++
          ("\n... (truncated, " ++ toString (longText.length - MAX_OUTPUT_LENGTH) ++
            " more characters)")) := by
  have hlong : longText.length > MAX_OUTPUT_LENGTH := by
    have h : longText.length = (List.replicate 10001 (Char.ofNat 97)).length := rfl
    rw [h, List.length_replicate]
    decide
  have hshort : ("hi" : String).length ≤ MAX_OUTPUT_LENGTH := by decide
  exact ⟨⟨hshort, (truncate_output_spec ("hi")).1 hshort⟩,
    ⟨hlong, (truncate_output_spec longText).2 hlong⟩⟩

/-- C4: for every language identifier outside the closed set
{python, javascript, c, cpp}, `execute` returns the dict with empty output,
error `"Unsupported language: "` followed by the language, success `false`,
and the world is returned untouched: no file or workspace is created or
deleted, nothing is spawned, no cleanup runs. -/
theorem execute_unsupported_language (env : Env) (payload : Payload) (w : World)
    (h : payload.language.getD ("") ∉
      (["python", "javascript", "c", "cpp"] : List String)) :
    execute env payload w =
      (Outcome.result ⟨"", "Unsupported language: " ++ payload.language.getD (""), false⟩,
        w) := by
  simp only [List.mem_cons, List.not_mem_nil, or_false, not_or] at h
  obtain ⟨h1, h2, h3, h4⟩ := h
  simp [execute, h1, h2, h3, h4]

/-- Closed instantiation of `execute_unsupported_language` at the language
identifier go. -/
theorem execute_unsupported_language_witness :
    ((⟨some (""), some ("go"), none⟩ : Payload).language.getD ("") ∉
      (["python", "javascript", "c", "cpp"] : List String)) ∧
    execute demoEnv ⟨some (""), some ("go"), none⟩ (World.init [] demoLimits) =
      (Outcome.result ⟨"", "Unsupported language: go", false⟩,
        World.init [] demoLimits) :=
  ⟨by decide,
    execute_unsupported_language demoEnv ⟨some (""), some ("go"), none⟩
      (World.init [] demoLimits) (by decide)⟩

/-- C10: a payload without a language key is dispatched as the empty-string
language and yields the unsupported-language result with no side effects; a
payload without a code key runs the pipeline on the empty program rather
than reporting a malformed request. -/
theorem missing_keys_default_empty (env : Env) (stdin : Option String)
    (c0 : String) (w : World) :
    execute env ⟨some c0, none, stdin⟩ w =
      (Outcome.result ⟨"", "Unsupported language: ", false⟩, w) ∧
    execute env ⟨none, some ("python"), stdin⟩ w = run_python env.py ("") stdin w ∧
    execute env ⟨none, some ("javascript"), stdin⟩ w = run_js env.js ("") stdin w ∧
    execute env ⟨none, some ("c"), stdin⟩ w = run_c env.c ("") stdin w ∧
    execute env ⟨none, some ("cpp"), stdin⟩ w = run_cpp env.cpp ("") stdin w := by
  refine ⟨?_, ?_, ?_, ?_, ?_⟩ <;> simp [execute]

/-- C2 counterexample: the claim that no exception propagates as an uncaught
fault is false on the code. At a concrete input whose wall-clock timeout
elapses (during the run step of `run_python`, and during the compile step of
`run_c`), the call raises `TimeoutExpired` instead of returning an
`ExecutionResult`. -/
theorem timeout_raises_uncaught :
    (run_python ⟨"/tmp/s.py", .timedOut⟩ ("while True: pass") none
        (World.init [] demoLimits)).1 = Outcome.raised PyExn.timeoutExpired ∧
    ((run_python ⟨"/tmp/s.py", .timedOut⟩ ("while True: pass") none
        (World.init [] demoLimits)).1.isResult = false) ∧
    (run_c ⟨"/tmp/s.c", .timedOut, false, .timedOut⟩ ("int main(){return 0;}") none
        (World.init [] demoLimits)).1 = Outcome.raised PyExn.timeoutExpired ∧
    ((run_c ⟨"/tmp/s.c", .timedOut, false, .timedOut⟩ ("int main(){return 0;}") none
        (World.init [] demoLimits)).1.isResult = false) := by
  decide

/-- C2 as amended: a failure in which the child process runs to completion
(non-zero exit, compile failure) is captured and converted into the uniform
`ExecutionResult` shape, but a wall-clock timeout elapsing during the
compile step or the run step raises `TimeoutExpired`, which propagates
uncaught to the caller; no timeout diagnostic text is produced. Each
pipeline returns an `ExecutionResult` exactly when no wall-clock timeout was
hit on a step it reached. -/
theorem outcome_uniform_unless_wall_timeout (envp envj : InterpEnv)
    (envc envd : CompileEnv) (code : String) (stdin : Option String) (w : World) :
    ((run_python envp code stdin w).1.isResult = !envp.wallTimeout) ∧
    ((run_js envj code stdin w).1.isResult = !envj.wallTimeout) ∧
    ((run_c envc code stdin w).1.isResult = !envc.wallTimeout) ∧
    ((run_cpp envd code stdin w).1.isResult = !envd.wallTimeout) := by
  refine ⟨?_, ?_, ?_, ?_⟩
  · obtain ⟨src, rr⟩ := envp
    cases rr <;> simp [run_python, InterpEnv.wallTimeout, Outcome.isResult]
  · obtain ⟨src, rr⟩ := envj
    cases rr <;> simp [run_js, InterpEnv.wallTimeout, Outcome.isResult]
  · obtain ⟨src, cr, ec, rr⟩ := envc
    cases cr with
    | timedOut =>
        cases ec <;> simp [run_c, CompileEnv.wallTimeout, Outcome.isResult]
    | completed a b rc =>
        by_cases hrc : rc ≠ 0
        · cases ec <;> simp [run_c, CompileEnv.wallTimeout, Outcome.isResult, hrc]
        · cases rr <;> cases ec <;>
            simp [run_c, CompileEnv.wallTimeout, Outcome.isResult, hrc]
  · obtain ⟨src, cr, ec, rr⟩ := envd
    cases cr with
    | timedOut =>
        cases ec <;> simp [run_cpp, CompileEnv.wallTimeout, Outcome.isResult]
    | completed a b rc =>
        by_cases hrc : rc ≠ 0
        · cases ec <;> simp [run_cpp, CompileEnv.wallTimeout, Outcome.isResult, hrc]
        · cases rr <;> cases ec <;>
            simp [run_cpp, CompileEnv.wallTimeout, Outcome.isResult, hrc]

/-- C5: for c and cpp, whenever the compiler exits with non-zero status the
run step is never invoked (no spawned process is the artifact-run step) and
the result is empty output, the compiler's captured stderr truncated, and
success `false`. -/
theorem compile_failure_skips_run (envc envd : CompileEnv) (code : String)
    (stdin : Option String) (files : List (String × String)) (limits : RLimits) :
    (∀ cout cerr crc, envc.compileRes = .completed cout cerr crc → crc ≠ 0 →
      (run_c envc code stdin (World.init files limits)).1 =
        .result ⟨"", truncate_output cerr MAX_OUTPUT_LENGTH, false⟩ ∧
      ((run_c envc code stdin (World.init files limits)).2.spawns.all
        (fun s => !(s.cmd.isRun))) = true) ∧
    (∀ cout cerr crc, envd.compileRes = .completed cout cerr crc → crc ≠ 0 →
      (run_cpp envd code stdin (World.init files limits)).1 =
        .result ⟨"", truncate_output cerr MAX_OUTPUT_LENGTH, false⟩ ∧
      ((run_cpp envd code stdin (World.init files limits)).2.spawns.all
        (fun s => !(s.cmd.isRun))) = true) := by
  constructor
  · intro cout cerr crc hcr hrc
    obtain ⟨src, cr, ec, rr⟩ := envc
    dsimp only at hcr
    subst hcr
    cases ec <;>
      simp [run_c, hrc, compiledCleanup_eq, World.init, World.setLimits,
        World.createFile, World.spawn, World.unlink, World.cleanupDone, Cmd.isRun]
  · intro cout cerr crc hcr hrc
    obtain ⟨src, cr, ec, rr⟩ := envd
    dsimp only at hcr
    subst hcr
    cases ec <;>
      simp [run_cpp, hrc, compiledCleanup_eq, World.init, World.setLimits,
        World.createFile, World.spawn, World.unlink, World.cleanupDone, Cmd.isRun]

/-- Closed instantiation of `compile_failure_skips_run` at concrete
environments whose compilers exit 2 (c) and 5 (cpp). -/
theorem compile_failure_skips_run_witness :
    (wCFail.compileRes = .completed ("") ("cdiag") 2 ∧ (2 : Int) ≠ 0 ∧
      (run_c wCFail ("x") none (World.init [] demoLimits)).1 =
        .result ⟨"", truncate_output ("cdiag") MAX_OUTPUT_LENGTH, false⟩ ∧
      ((run_c wCFail ("x") none (World.init [] demoLimits)).2.spawns.all
        (fun s => !(s.cmd.isRun))) = true) ∧
    (wCppFail.compileRes = .completed ("") ("cppdiag") 5 ∧ (5 : Int) ≠ 0 ∧
      (run_cpp wCppFail ("x") none (World.init [] demoLimits)).1 =
        .result ⟨"", truncate_output ("cppdiag") MAX_OUTPUT_LENGTH, false⟩ ∧
      ((run_cpp wCppFail ("x") none (World.init [] demoLimits)).2.spawns.all
        (fun s => !(s.cmd.isRun))) = true) := by
  refine ⟨⟨rfl, by decide, ?_⟩, ⟨rfl, by decide, ?_⟩⟩
  · exact (compile_failure_skips_run wCFail wCppFail ("x") none [] demoLimits).1
      ("") ("cdiag") 2 rfl (by decide)
  · exact (compile_failure_skips_run wCFail wCppFail ("x") none [] demoLimits).2
      ("") ("cppdiag") 5 rfl (by decide)

/-- C6: whenever an execution produces an `ExecutionResult`, its `success`
field is `true` iff the final process exited with status zero: the run
step's exit code when the run step happens, and `false` whenever the compile
step failed. -/
theorem success_iff_exit_zero (envp envj : InterpEnv) (envc envd : CompileEnv)
    (code : String) (stdin : Option String) (w : World) :
    (∀ out err rc, envp.runRes = .completed out err rc →
      (run_python envp code stdin w).1.successOf = some (rc == 0)) ∧
    (∀ out err rc, envj.runRes = .completed out err rc →
      (run_js envj code stdin w).1.successOf = some (rc == 0)) ∧
    (∀ cout cerr crc, envc.compileRes = .completed cout cerr crc → crc ≠ 0 →
      (run_c envc code stdin w).1.successOf = some false) ∧
    (∀ cout cerr out err rc, envc.compileRes = .completed cout cerr 0 →
      envc.runRes = .completed out err rc →
      (run_c envc code stdin w).1.successOf = some (rc == 0)) ∧
    (∀ cout cerr crc, envd.compileRes = .completed cout cerr crc → crc ≠ 0 →
      (run_cpp envd code stdin w).1.successOf = some false) ∧
    (∀ cout cerr out err rc, envd.compileRes = .completed cout cerr 0 →
      envd.runRes = .completed out err rc →
      (run_cpp envd code stdin w).1.successOf = some (rc == 0)) := by
  refine ⟨?_, ?_, ?_, ?_, ?_, ?_⟩
  · intro out err rc hrr
    obtain ⟨src, rr⟩ := envp
    dsimp only at hrr
    subst hrr
    simp [run_python, Outcome.successOf]
  · intro out err rc hrr
    obtain ⟨src, rr⟩ := envj
    dsimp only at hrr
    subst hrr
    simp [run_js, Outcome.successOf]
  · intro cout cerr crc hcr hrc
    obtain ⟨src, cr, ec, rr⟩ := envc
    dsimp only at hcr
    subst hcr
    cases ec <;> simp [run_c, hrc, Outcome.successOf]
  · intro cout cerr out err rc hcr hrr
    obtain ⟨src, cr, ec, rr⟩ := envc
    dsimp only at hcr hrr
    subst hcr
    subst hrr
    cases ec <;> simp [run_c, Outcome.successOf]
  · intro cout cerr crc hcr hrc
    obtain ⟨src, cr, ec, rr⟩ := envd
    dsimp only at hcr
    subst hcr
    cases ec <;> simp [run_cpp, hrc, Outcome.successOf]
  · intro cout cerr out err rc hcr hrr
    obtain ⟨src, cr, ec, rr⟩ := envd
    dsimp only at hcr hrr
    subst hcr
    subst hrr
    cases ec <;> simp [run_cpp, Outcome.successOf]

/-- Closed instantiation of `success_iff_exit_zero`: a python child exiting
3, a js child exiting 0, a failed c compile (exit 2), a c run exiting 0
after a clean compile, a failed cpp compile (exit 5), and a cpp run exiting
7 after a clean compile. -/
theorem success_iff_exit_zero_witness :
    (wPy.runRes = .completed ("o") ("e") 3 ∧
      (run_python wPy ("x") none (World.init [] demoLimits)).1.successOf =
        some ((3 : Int) == 0)) ∧
    (wJs.runRes = .completed ("") ("") 0 ∧
      (run_js wJs ("x") none (World.init [] demoLimits)).1.successOf =
        some ((0 : Int) == 0)) ∧
    (wCFail.compileRes = .completed ("") ("cdiag") 2 ∧ (2 : Int) ≠ 0 ∧
      (run_c wCFail ("x") none (World.init [] demoLimits)).1.successOf = some false) ∧
    (wCOk.compileRes = .completed ("") ("") 0 ∧ wCOk.runRes = .completed ("ok") ("") 0 ∧
      (run_c wCOk ("x") none (World.init [] demoLimits)).1.successOf =
        some ((0 : Int) == 0)) ∧
    (wCppFail.compileRes = .completed ("") ("cppdiag") 5 ∧ (5 : Int) ≠ 0 ∧
      (run_cpp wCppFail ("x") none (World.init [] demoLimits)).1.successOf =
        some false) ∧
    (wCppOk.compileRes = .completed ("") ("") 0 ∧ wCppOk.runRes = .completed ("") ("") 7 ∧
      (run_cpp wCppOk ("x") none (World.init [] demoLimits)).1.successOf =
        some ((7 : Int) == 0)) := by
  refine ⟨⟨rfl, ?_⟩, ⟨rfl, ?_⟩, ⟨rfl, by decide, ?_⟩, ⟨rfl, rfl, ?_⟩,
    ⟨rfl, by decide, ?_⟩, ⟨rfl, rfl, ?_⟩⟩
  · exact (success_iff_exit_zero wPy wJs wCFail wCppFail ("x") none
      (World.init [] demoLimits)).1 ("o") ("e") 3 rfl
  · exact (success_iff_exit_zero wPy wJs wCFail wCppFail ("x") none
      (World.init [] demoLimits)).2.1 ("") ("") 0 rfl
  · exact (success_iff_exit_zero wPy wJs wCFail wCppFail ("x") none
      (World.init [] demoLimits)).2.2.1 ("") ("cdiag") 2 rfl (by decide)
  · exact (success_iff_exit_zero wPy wJs wCOk wCppOk ("x") none
      (World.init [] demoLimits)).2.2.2.1 ("") ("") ("ok") ("") 0 rfl rfl
  · exact (success_iff_exit_zero wPy wJs wCFail wCppFail ("x") none
      (World.init [] demoLimits)).2.2.2.2.1 ("") ("cppdiag") 5 rfl (by decide)
  · exact (success_iff_exit_zero wPy wJs wCOk wCppOk ("x") none
      (World.init [] demoLimits)).2.2.2.2.2 ("") ("") ("") ("") 7 rfl rfl

/-- C7: the fixed operational parameters are reproduced exactly for every
language: every child carries CPU limit (2, 2) (soft = hard) and
address-space limit 268435456 bytes (256 MiB), the wall-clock run timeout is
25 s for python and javascript, and both compile and run use a 20 s timeout
for c and cpp. -/
theorem fixed_operational_parameters (envp envj : InterpEnv) (envc envd : CompileEnv)
    (code : String) (stdin : Option String) (files : List (String × String))
    (limits : RLimits) :
    MAX_MEMORY_MB * 1024 * 1024 = 268435456 ∧
    ((run_python envp code stdin (World.init files limits)).2.spawns.all
      (fun s => s.timeout == 25 && s.cpuLimit == (2, 2) &&
        s.asLimit == (268435456, 268435456))) = true ∧
    ((run_js envj code stdin (World.init files limits)).2.spawns.all
      (fun s => s.timeout == 25 && s.cpuLimit == (2, 2) &&
        s.asLimit == (268435456, 268435456))) = true ∧
    ((run_c envc code stdin (World.init files limits)).2.spawns.all
      (fun s => s.timeout == 20 && s.cpuLimit == (2, 2) &&
        s.asLimit == (268435456, 268435456))) = true ∧
    ((run_cpp envd code stdin (World.init files limits)).2.spawns.all
      (fun s => s.timeout == 20 && s.cpuLimit == (2, 2) &&
        s.asLimit == (268435456, 268435456))) = true := by
  refine ⟨by decide, ?_, ?_, ?_, ?_⟩
  · obtain ⟨src, rr⟩ := envp
    cases rr <;>
      simp [run_python, World.init, World.setLimits, World.createFile, World.spawn,
        World.unlink, World.cleanupDone, set_resource_limits, MAX_CPU_SECONDS,
        MAX_MEMORY_MB]
  · obtain ⟨src, rr⟩ := envj
    cases rr <;>
      simp [run_js, World.init, World.setLimits, World.createFile, World.spawn,
        World.unlink, World.cleanupDone, set_resource_limits, MAX_CPU_SECONDS,
        MAX_MEMORY_MB]
  · obtain ⟨src, cr, ec, rr⟩ := envc
    cases cr with
    | timedOut =>
        cases ec <;>
          simp [run_c, World.init, World.setLimits, World.createFile, World.spawn,
            World.unlink, World.cleanupDone, compiledCleanup_eq, set_resource_limits,
            MAX_CPU_SECONDS, MAX_MEMORY_MB]
    | completed a b rc =>
        by_cases hrc : rc ≠ 0 <;> cases rr <;> cases ec <;>
          simp [run_c, World.init, World.setLimits, World.createFile, World.spawn,
            World.unlink, World.cleanupDone, compiledCleanup_eq, set_resource_limits,
            MAX_CPU_SECONDS, MAX_MEMORY_MB, hrc]
  · obtain ⟨src, cr, ec, rr⟩ := envd
    cases cr with
    | timedOut =>
        cases ec <;>
          simp [run_cpp, World.init, World.setLimits, World.createFile, World.spawn,
            World.unlink, World.cleanupDone, compiledCleanup_eq, set_resource_limits,
            MAX_CPU_SECONDS, MAX_MEMORY_MB]
    | completed a b rc =>
        by_cases hrc : rc ≠ 0 <;> cases rr <;> cases ec <;>
          simp [run_cpp, World.init, World.setLimits, World.createFile, World.spawn,
            World.unlink, World.cleanupDone, compiledCleanup_eq, set_resource_limits,
            MAX_CPU_SECONDS, MAX_MEMORY_MB, hrc]

/-- C8 counterexample: applying the limits for one execution does change the
service process's own limit state. At a concrete input whose pre-call limit
state differs from the constants, the limit state after the call is the
constants, not the pre-call value the claim says is left unchanged. -/
theorem setrlimit_mutates_service_process :
    (run_python ⟨"/tmp/s.py", .completed ("") ("") 0⟩ ("x") none
        (World.init [] demoLimits)).2.limits ≠ demoLimits ∧
    (run_python ⟨"/tmp/s.py", .completed ("") ("") 0⟩ ("x") none
        (World.init [] demoLimits)).2.limits = ⟨(2, 2), (268435456, 268435456)⟩ := by
  decide

/-- C8 as amended: the limits are applied by mutating the service process's
own (process-wide) limit state immediately before spawning: after any run
call the service process's limit state equals the fixed constants regardless
of its prior value, and each spawned child inherits exactly those constants;
the service process's limit state is not left unchanged. -/
theorem limits_mutated_processwide (envp envj : InterpEnv) (envc envd : CompileEnv)
    (code : String) (stdin : Option String) (files : List (String × String))
    (limits : RLimits) :
    (run_python envp code stdin (World.init files limits)).2.limits =
      ⟨(MAX_CPU_SECONDS, MAX_CPU_SECONDS),
        (MAX_MEMORY_MB * 1024 * 1024, MAX_MEMORY_MB * 1024 * 1024)⟩ ∧
    (run_js envj code stdin (World.init files limits)).2.limits =
      ⟨(MAX_CPU_SECONDS, MAX_CPU_SECONDS),
        (MAX_MEMORY_MB * 1024 * 1024, MAX_MEMORY_MB * 1024 * 1024)⟩ ∧
    (run_c envc code stdin (World.init files limits)).2.limits =
      ⟨(MAX_CPU_SECONDS, MAX_CPU_SECONDS),
        (MAX_MEMORY_MB * 1024 * 1024, MAX_MEMORY_MB * 1024 * 1024)⟩ ∧
    (run_cpp envd code stdin (World.init files limits)).2.limits =
      ⟨(MAX_CPU_SECONDS, MAX_CPU_SECONDS),
        (MAX_MEMORY_MB * 1024 * 1024, MAX_MEMORY_MB * 1024 * 1024)⟩ ∧
    ((run_python envp code stdin (World.init files limits)).2.spawns.all
      (fun s => s.cpuLimit == (MAX_CPU_SECONDS, MAX_CPU_SECONDS) &&
        s.asLimit == (MAX_MEMORY_MB * 1024 * 1024, MAX_MEMORY_MB * 1024 * 1024))) = true ∧
    ((run_c envc code stdin (World.init files limits)).2.spawns.all
      (fun s => s.cpuLimit == (MAX_CPU_SECONDS, MAX_CPU_SECONDS) &&
        s.asLimit == (MAX_MEMORY_MB * 1024 * 1024, MAX_MEMORY_MB * 1024 * 1024))) = true := by
  refine ⟨?_, ?_, ?_, ?_, ?_, ?_⟩
  · obtain ⟨src, rr⟩ := envp
    cases rr <;>
      simp [run_python, World.init, World.setLimits, World.createFile, World.spawn,
        World.unlink, World.cleanupDone, set_resource_limits]
  · obtain ⟨src, rr⟩ := envj
    cases rr <;>
      simp [run_js, World.init, World.setLimits, World.createFile, World.spawn,
        World.unlink, World.cleanupDone, set_resource_limits]
  · obtain ⟨src, cr, ec, rr⟩ := envc
    cases cr with
    | timedOut =>
        cases ec <;>
          simp [run_c, World.init, World.setLimits, World.createFile, World.spawn,
            World.unlink, World.cleanupDone, compiledCleanup_eq, set_resource_limits]
    | completed a b rc =>
        by_cases hrc : rc ≠ 0 <;> cases rr <;> cases ec <;>
          simp [run_c, World.init, World.setLimits, World.createFile, World.spawn,
            World.unlink, World.cleanupDone, compiledCleanup_eq, set_resource_limits, hrc]
  · obtain ⟨src, cr, ec, rr⟩ := envd
    cases cr with
    | timedOut =>
        cases ec <;>
          simp [run_cpp, World.init, World.setLimits, World.createFile, World.spawn,
            World.unlink, World.cleanupDone, compiledCleanup_eq, set_resource_limits]
    | completed a b rc =>
        by_cases hrc : rc ≠ 0 <;> cases rr <;> cases ec <;>
          simp [run_cpp, World.init, World.setLimits, World.createFile, World.spawn,
            World.unlink, World.cleanupDone, compiledCleanup_eq, set_resource_limits, hrc]
  · obtain ⟨src, rr⟩ := envp
    cases rr <;>
      simp [run_python, World.init, World.setLimits, World.createFile, World.spawn,
        World.unlink, World.cleanupDone, set_resource_limits]
  · obtain ⟨src, cr, ec, rr⟩ := envc
    cases cr with
    | timedOut =>
        cases ec <;>
          simp [run_c, World.init, World.setLimits, World.createFile, World.spawn,
            World.unlink, World.cleanupDone, compiledCleanup_eq, set_resource_limits]
    | completed a b rc =>
        by_cases hrc : rc ≠ 0 <;> cases rr <;> cases ec <;>
          simp [run_c, World.init, World.setLimits, World.createFile, World.spawn,
            World.unlink, World.cleanupDone, compiledCleanup_eq, set_resource_limits, hrc]

/-- C9 counterexample: a stdin value that is present in the request but is
the empty string is not fed to the child's input stream. At a concrete
input with stdin present as the empty string, exactly one child is spawned
and its input is not the empty string (it is `None`). -/
theorem empty_stdin_not_fed :
    ((run_python ⟨"/tmp/s.py", .completed ("") ("") 0⟩ ("input()") (some (""))
        (World.init [] demoLimits)).2.spawns.all
      (fun s => s.input == some (""))) = false ∧
    (run_python ⟨"/tmp/s.py", .completed ("") ("") 0⟩ ("input()") (some (""))
        (World.init [] demoLimits)).2.spawns.length = 1 := by
  decide

/-- C9 as amended: a non-empty stdin value present in the request is fed to
the child's input stream; when stdin is absent or is the empty string
(Python truthiness of `stdin if stdin else None`), the child receives no
input. Compiler children never receive input. -/
theorem stdin_fed_iff_truthy (envp envj : InterpEnv) (envc envd : CompileEnv)
    (code : String) (stdin : Option String) (files : List (String × String))
    (limits : RLimits) :
    ((run_python envp code stdin (World.init files limits)).2.spawns.all
      (fun s => s.input == inputArg stdin)) = true ∧
    ((run_js envj code stdin (World.init files limits)).2.spawns.all
      (fun s => s.input == inputArg stdin)) = true ∧
    ((run_c envc code stdin (World.init files limits)).2.spawns.all
      (fun s => s.input == if s.cmd.isCompile then none else inputArg stdin)) = true ∧
    ((run_cpp envd code stdin (World.init files limits)).2.spawns.all
      (fun s => s.input == if s.cmd.isCompile then none else inputArg stdin)) = true ∧
    inputArg none = none ∧
    inputArg (some ("")) = none ∧
    (∀ s : String, s ≠ "" → inputArg (some s) = some s) := by
  refine ⟨?_, ?_, ?_, ?_, rfl, rfl, ?_⟩
  · obtain ⟨src, rr⟩ := envp
    cases rr <;>
      simp [run_python, World.init, World.setLimits, World.createFile, World.spawn,
        World.unlink, World.cleanupDone]
  · obtain ⟨src, rr⟩ := envj
    cases rr <;>
      simp [run_js, World.init, World.setLimits, World.createFile, World.spawn,
        World.unlink, World.cleanupDone]
  · obtain ⟨src, cr, ec, rr⟩ := envc
    cases cr with
    | timedOut =>
        cases ec <;>
          simp [run_c, World.init, World.setLimits, World.createFile, World.spawn,
            World.unlink, World.cleanupDone, compiledCleanup_eq, Cmd.isCompile]
    | completed a b rc =>
        by_cases hrc : rc ≠ 0 <;> cases rr <;> cases ec <;>
          simp [run_c, World.init, World.setLimits, World.createFile, World.spawn,
            World.unlink, World.cleanupDone, compiledCleanup_eq, Cmd.isCompile, hrc]
  · obtain ⟨src, cr, ec, rr⟩ := envd
    cases cr with
    | timedOut =>
        cases ec <;>
          simp [run_cpp, World.init, World.setLimits, World.createFile, World.spawn,
            World.unlink, World.cleanupDone, compiledCleanup_eq, Cmd.isCompile]
    | completed a b rc =>
        by_cases hrc : rc ≠ 0 <;> cases rr <;> cases ec <;>
          simp [run_cpp, World.init, World.setLimits, World.createFile, World.spawn,
            World.unlink, World.cleanupDone, compiledCleanup_eq, Cmd.isCompile, hrc]
  · intro s hs
    simp [inputArg, hs]

/-- Closed instantiation of `stdin_fed_iff_truthy` at the non-empty stdin
value hello. -/
theorem stdin_fed_iff_truthy_witness :
    ("hello" : String) ≠ "" ∧ inputArg (some ("hello")) = some ("hello") :=
  ⟨by decide,
    (stdin_fed_iff_truthy wPy wJs wCOk wCppOk ("x") none [] demoLimits).2.2.2.2.2.2
      ("hello") (by decide)⟩

end CodeExecutor
